import Mathlib

/-!
Shallow embedding of the arena-shooter simulation core of this repository.

The gameplay entities (Player, Assassin, Shooter, Tank, Weapon, Projectile)
are translated from the `gameplay.js` entity module; the driver, the state
machine and the collision pipeline are translated from `main.js`
(`Game.update`, `Game.handleCollisions`, `GameStateMachine.setState`); the
vector and collision helpers come from `core.js` (`Utils`,
`CollisionSystem`); a second, independent weapon/fire implementation comes
from `entities.js` (`Player.tryFire` with `normalizeVector` from
`utils.js`).

Numbers are embedded as rationals.  `Math.sqrt` is embedded by `ratSqrt`,
which is exact whenever numerator and denominator of its (always
nonnegative) argument are perfect squares; every concrete input evaluated
in the theorems below is chosen so that all square roots taken are exact.
The general theorems never depend on the value of a square root beyond the
Boolean outcome of the comparison it feeds.
-/

/-- Gameplay constants from the entity module. -/
def PLAYER_IFRAME_DURATION : ℚ := 4/5

def TANK_CONTACT_COOLDOWN : ℚ := 7/10

def TANK_KNOCKBACK : ℚ := 8

def TANK_FLASH_DURATION : ℚ := 1/10

def SHOOTER_MOVE_DURATION : ℚ := 2

def SHOOTER_FIRE_RATE : ℚ := 2

def SHOOTER_BULLET_SPEED : ℚ := 400

def SHOOTER_BULLET_RADIUS : ℚ := 4

def SHOOTER_BULLET_LIFETIME : ℚ := 5/2

def BULLET_SPEED : ℚ := 600

def BULLET_RADIUS : ℚ := 3

def PISTOL_FIRE_RATE : ℚ := 1

def MACHINE_GUN_FIRE_RATE : ℚ := 1/2

def MACHINE_GUN_AMMO : ℤ := 50

/-- Collision epsilon from core.js. -/
def COLLISION_EPSILON : ℚ := 1/1000

/-- Arena size constants from main.js. -/
def ARENA_WIDTH : ℚ := 1200

def ARENA_HEIGHT : ℚ := 800

/-- Newton iteration for the integer square root, with an explicit fuel
argument so that it is structurally recursive. -/
def sqrtIter : ℕ → ℕ → ℕ → ℕ
  | 0, _, guess => guess
  | fuel + 1, n, guess =>
    let next := (guess + n / guess) / 2
    if next < guess then sqrtIter fuel n next else guess

/-- Integer square root (exact on perfect squares). -/
def natSqrt (n : ℕ) : ℕ := if n ≤ 1 then n else sqrtIter n n (n / 2)

/-- Embedding of `Math.sqrt` on rationals: exact whenever the argument's
numerator and denominator are perfect squares (true at every concrete input
used below); always total and nonnegative like the source. -/
def ratSqrt (q : ℚ) : ℚ := (natSqrt q.num.toNat : ℚ) / (natSqrt q.den : ℚ)

/-- A 2-component vector object, as returned by `Utils.normalize`. -/
structure Vec2 where
  x : ℚ
  y : ℚ
deriving DecidableEq, Repr

/-- `Utils.clamp(value, min, max)` from core.js:
`Math.min(Math.max(value, min), max)`. -/
def Utils.clamp (value lo hi : ℚ) : ℚ := min (max value lo) hi

/-- `Utils.distance(x1, y1, x2, y2)` from core.js. -/
def Utils.distance (x1 y1 x2 y2 : ℚ) : ℚ :=
  ratSqrt ((x2 - x1) * (x2 - x1) + (y2 - y1) * (y2 - y1))

/-- `Utils.normalize(x, y)` from core.js: the zero vector when the length
is zero, never a division by zero. -/
def Utils.normalize (x y : ℚ) : Vec2 :=
  let length := ratSqrt (x * x + y * y)
  if length = 0 then ⟨0, 0⟩ else ⟨x / length, y / length⟩

/-- `CollisionSystem.checkCircleCollision(obj1, obj2)` from core.js, with
the two circle objects passed as their read fields
`(x, y, radius)`: `distance < r1 + r2 + COLLISION_EPSILON`. -/
def CollisionSystem.checkCircleCollision (x1 y1 r1 x2 y2 r2 : ℚ) : Bool :=
  decide (ratSqrt ((x2 - x1) * (x2 - x1) + (y2 - y1) * (y2 - y1)) <
    r1 + r2 + COLLISION_EPSILON)

/-- Owner tag of a projectile: the string `'player'` or a reference to the
enemy that fired it; `none` embeds the null owner the collision pass also
guards against. -/
inductive OwnerKind where
  | player : OwnerKind
  | enemyRef : OwnerKind
deriving DecidableEq, Repr

/-- Projectile from the gameplay entity module: an Entity (position,
radius, velocity, hp fields from the base class, alive flag) plus damage,
owner, lifetime and age.  The render-only color string is omitted. -/
structure Projectile where
  x : ℚ
  y : ℚ
  radius : ℚ
  vx : ℚ
  vy : ℚ
  hp : ℚ
  maxHp : ℚ
  alive : Bool
  damage : ℚ
  owner : Option OwnerKind
  lifetime : ℚ
  age : ℚ
deriving DecidableEq, Repr

/-- `Projectile.isAlive()` (inherited from Entity). -/
def Projectile.isAlive (pr : Projectile) : Bool := pr.alive

/-- Player from the gameplay entity module: Entity base fields plus speed,
invulnerability timer, flash timer and the creator-mode flag copied in from
the game each tick.  Render-only animation sub-state is omitted. -/
structure Player where
  x : ℚ
  y : ℚ
  radius : ℚ
  vx : ℚ
  vy : ℚ
  hp : ℚ
  maxHp : ℚ
  alive : Bool
  speed : ℚ
  iframeTimer : ℚ
  flashTimer : ℚ
  creatorMode : Bool
deriving DecidableEq, Repr

/-- Player constructor: radius 16, 3 hp, speed 220, timers at zero; the
creator-mode flag is initially unset. -/
def mkPlayer (x y : ℚ) : Player :=
  { x := x, y := y, radius := 16, vx := 0, vy := 0, hp := 3, maxHp := 3,
    alive := true, speed := 220, iframeTimer := 0, flashTimer := 0,
    creatorMode := false }

/-- `Player.isAlive()` (inherited from Entity). -/
def Player.isAlive (p : Player) : Bool := p.alive

/-- `Player.canTakeDamage()`: the invulnerability timer has run out. -/
def Player.canTakeDamage (p : Player) : Bool := decide (p.iframeTimer ≤ 0)

/-- `Player.takeDamage(damage)` from the gameplay entity module: rejected
while the invulnerability timer is positive; in creator mode the timers are
started and success is reported without touching hp; otherwise the Entity
base damage is applied (hp decreases, hp ≤ 0 clears the alive flag) and the
invulnerability and flash timers are started.  Returns the JS boolean
result together with the mutated player. -/
def Player.takeDamage (p : Player) (damage : ℚ) : Bool × Player :=
  if p.iframeTimer > 0 then (false, p)
  else if p.creatorMode then
    (true, { p with iframeTimer := PLAYER_IFRAME_DURATION, flashTimer := 1/10 })
  else
    let hp := p.hp - damage
    (true, { p with hp := hp,
                    alive := if hp ≤ 0 then false else p.alive,
                    iframeTimer := PLAYER_IFRAME_DURATION,
                    flashTimer := 1/10 })

/-- The three enemy classes of the gameplay entity module. -/
inductive EnemyKind where
  | assassin : EnemyKind
  | shooter : EnemyKind
  | tank : EnemyKind
deriving DecidableEq, Repr

/-- Enemy: the class hierarchy Assassin/Shooter/Tank flattened into one
record carrying a kind tag; fields of the other variants sit at their
constructor defaults.  Render-only color is omitted. -/
structure Enemy where
  kind : EnemyKind
  x : ℚ
  y : ℚ
  radius : ℚ
  vx : ℚ
  vy : ℚ
  hp : ℚ
  maxHp : ℚ
  alive : Bool
  speed : ℚ
  damage : ℚ
  moveTimer : ℚ
  fireTimer : ℚ
  isMoving : Bool
  centerX : ℚ
  centerY : ℚ
  contactCooldown : ℚ
  flashTimer : ℚ
  isFlashing : Bool
  lastContactTime : ℚ
deriving DecidableEq, Repr

/-- Assassin constructor: radius 15, 1 hp, speed 150, contact damage 1. -/
def mkAssassin (x y : ℚ) : Enemy :=
  { kind := EnemyKind.assassin, x := x, y := y, radius := 15, vx := 0, vy := 0,
    hp := 1, maxHp := 1, alive := true, speed := 150, damage := 1,
    moveTimer := 0, fireTimer := 0, isMoving := false, centerX := 0,
    centerY := 0, contactCooldown := 0, flashTimer := 0, isFlashing := false,
    lastContactTime := 0 }

/-- Shooter constructor: radius 20, 1 hp, speed 120, moving toward the
center with both timers at zero. -/
def mkShooter (x y : ℚ) : Enemy :=
  { kind := EnemyKind.shooter, x := x, y := y, radius := 20, vx := 0, vy := 0,
    hp := 1, maxHp := 1, alive := true, speed := 120, damage := 1,
    moveTimer := 0, fireTimer := 0, isMoving := true, centerX := 0,
    centerY := 0, contactCooldown := 0, flashTimer := 0, isFlashing := false,
    lastContactTime := 0 }

/-- Tank constructor: radius 25, 3 hp, speed 120, contact cooldown and
flash timer at zero. -/
def mkTank (x y : ℚ) : Enemy :=
  { kind := EnemyKind.tank, x := x, y := y, radius := 25, vx := 0, vy := 0,
    hp := 3, maxHp := 3, alive := true, speed := 120, damage := 1,
    moveTimer := 0, fireTimer := 0, isMoving := false, centerX := 0,
    centerY := 0, contactCooldown := 0, flashTimer := 0, isFlashing := false,
    lastContactTime := 0 }

/-- `Enemy.isAlive()` (inherited from Entity). -/
def Enemy.isAlive (e : Enemy) : Bool := e.alive

/-- `takeDamage(damage)` on an enemy: the Entity base behavior (hp
decreases, hp ≤ 0 clears the alive flag); the Tank class additionally
overrides it to start its white hit-flash. -/
def Enemy.takeDamage (e : Enemy) (damage : ℚ) : Enemy :=
  let hp := e.hp - damage
  let e := { e with hp := hp, alive := if hp ≤ 0 then false else e.alive }
  if e.kind = EnemyKind.tank then
    { e with isFlashing := true, flashTimer := TANK_FLASH_DURATION }
  else e

/-- Arena bounds object handed to every update: `{ width, height }`. -/
structure Bounds where
  width : ℚ
  height : ℚ
deriving DecidableEq, Repr

/-- `Assassin.update(deltaTime, player, bounds)`: a no-op when the player
is not alive; otherwise steer straight at the player, integrate the
velocity (the Entity base update) and clamp to the arena. -/
def Assassin.update (e : Enemy) (dt : ℚ) (player : Player) (bounds : Bounds) :
    Enemy :=
  if ¬ player.isAlive then e else
  let dist := Utils.distance e.x e.y player.x player.y
  let e := if dist > 0 then
      { e with vx := (player.x - e.x) / dist * e.speed,
               vy := (player.y - e.y) / dist * e.speed }
    else e
  let e := { e with x := e.x + e.vx * dt, y := e.y + e.vy * dt }
  { e with x := Utils.clamp e.x e.radius (bounds.width - e.radius),
           y := Utils.clamp e.y e.radius (bounds.height - e.radius) }

/-- `Shooter.fireAtPlayer(player, projectiles)`: pushes a ShooterBullet
from the shooter's position.  The bullet direction — `atan2` toward the
player plus a `Math.random` spread of up to ±4 degrees, then `cos`/`sin` —
is supplied as the unit vector `aim`, embedding the sampled randomness and
the transcendental angle arithmetic as a parameter. -/
def Shooter.fireAtPlayer (e : Enemy) (aim : Vec2) (projectiles : List Projectile) :
    List Projectile :=
  projectiles ++
    [{ x := e.x, y := e.y, radius := SHOOTER_BULLET_RADIUS,
       vx := aim.x * SHOOTER_BULLET_SPEED, vy := aim.y * SHOOTER_BULLET_SPEED,
       hp := 1, maxHp := 1, alive := true, damage := 1,
       owner := some OwnerKind.enemyRef, lifetime := SHOOTER_BULLET_LIFETIME,
       age := 0 }]

/-- `Shooter.update(deltaTime, player, bounds, projectiles)`: a no-op when
the player is not alive; otherwise set the center target on first use,
advance the move and fire timers, run the approach-then-hold movement
policy, fire at the player when the fire timer reaches the fire interval,
integrate and clamp. -/
def Shooter.update (e : Enemy) (dt : ℚ) (player : Player) (bounds : Bounds)
    (projectiles : List Projectile) (aim : Vec2) : Enemy × List Projectile :=
  if ¬ player.isAlive then (e, projectiles) else
  let e := if e.centerX = 0 ∧ e.centerY = 0 then
      { e with centerX := bounds.width / 2, centerY := bounds.height / 2 }
    else e
  let e := { e with moveTimer := e.moveTimer + dt, fireTimer := e.fireTimer + dt }
  let e :=
    if e.isMoving ∧ e.moveTimer < SHOOTER_MOVE_DURATION then
      let dist := Utils.distance e.x e.y e.centerX e.centerY
      if dist > 5 then
        let n := Utils.normalize (e.centerX - e.x) (e.centerY - e.y)
        { e with vx := n.x * e.speed, vy := n.y * e.speed }
      else { e with vx := 0, vy := 0, isMoving := false }
    else { e with isMoving := false, vx := 0, vy := 0 }
  let r :=
    if e.fireTimer ≥ SHOOTER_FIRE_RATE then
      ({ e with fireTimer := 0 }, Shooter.fireAtPlayer e aim projectiles)
    else (e, projectiles)
  let e := r.1
  let e := { e with x := e.x + e.vx * dt, y := e.y + e.vy * dt }
  ({ e with x := Utils.clamp e.x e.radius (bounds.width - e.radius),
            y := Utils.clamp e.y e.radius (bounds.height - e.radius) }, r.2)

/-- `Tank.dealContactDamage(player)`: applies 1 damage (ignoring the
returned flag), starts the contact cooldown and knocks the player back by
`TANK_KNOCKBACK` along the normal from the tank to the player. -/
def Tank.dealContactDamage (t : Enemy) (player : Player) : Enemy × Player :=
  let player := (player.takeDamage 1).2
  let t := { t with contactCooldown := TANK_CONTACT_COOLDOWN }
  let dist := Utils.distance t.x t.y player.x player.y
  if dist > 0 then
    let n := Utils.normalize (player.x - t.x) (player.y - t.y)
    (t, { player with x := player.x + n.x * TANK_KNOCKBACK,
                      y := player.y + n.y * TANK_KNOCKBACK })
  else (t, player)

/-- `Tank.update(deltaTime, player, bounds)`: a no-op when the player is
not alive; otherwise run down the contact and flash timers, pursue the
player, integrate and clamp, then deal contact damage when off cooldown,
the player is damage-eligible and the circles overlap. -/
def Tank.update (t : Enemy) (dt : ℚ) (player : Player) (bounds : Bounds) :
    Enemy × Player :=
  if ¬ player.isAlive then (t, player) else
  let t := { t with contactCooldown := t.contactCooldown - dt,
                    flashTimer := t.flashTimer - dt }
  let t : Enemy := if t.flashTimer ≤ 0 then { t with isFlashing := false } else t
  let dist := Utils.distance t.x t.y player.x player.y
  let t : Enemy := if dist > 0 then
      let n := Utils.normalize (player.x - t.x) (player.y - t.y)
      { t with vx := n.x * t.speed, vy := n.y * t.speed }
    else { t with vx := 0, vy := 0 }
  let t := { t with x := t.x + t.vx * dt, y := t.y + t.vy * dt }
  let t := { t with x := Utils.clamp t.x t.radius (bounds.width - t.radius),
                    y := Utils.clamp t.y t.radius (bounds.height - t.radius) }
  if decide (t.contactCooldown ≤ 0) && player.canTakeDamage then
    let playerDistance := Utils.distance t.x t.y player.x player.y
    if playerDistance < t.radius + player.radius then
      Tank.dealContactDamage t player
    else (t, player)
  else (t, player)

/-- The two weapon classes of the gameplay entity module. -/
inductive WeaponKind where
  | pistol : WeaponKind
  | machineGun : WeaponKind
deriving DecidableEq, Repr

/-- Weapon from the gameplay entity module: fire-rate interval in seconds,
capacity (`ammo`, with -1 meaning infinite), remaining rounds
(`currentAmmo`) and the timestamp of the last successful shot.  The class
tag selects the MachineGun `canFire` override. -/
structure Weapon where
  kind : WeaponKind
  fireRate : ℚ
  ammo : ℤ
  currentAmmo : ℤ
  lastFireTime : ℚ
deriving DecidableEq, Repr

/-- Pistol constructor: 1 s fire rate, infinite ammo. -/
def mkPistol : Weapon :=
  { kind := WeaponKind.pistol, fireRate := PISTOL_FIRE_RATE, ammo := -1,
    currentAmmo := -1, lastFireTime := 0 }

/-- MachineGun constructor: 0.5 s fire rate, 50 rounds. -/
def mkMachineGun : Weapon :=
  { kind := WeaponKind.machineGun, fireRate := MACHINE_GUN_FIRE_RATE,
    ammo := MACHINE_GUN_AMMO, currentAmmo := MACHINE_GUN_AMMO,
    lastFireTime := 0 }

/-- `canFire()` at wall-clock second `now` (`Date.now() / 1000`): the base
class requires the fire-rate interval to have elapsed and either infinite
capacity or rounds remaining; the MachineGun override requires rounds
remaining outright. -/
def Weapon.canFire (w : Weapon) (now : ℚ) : Bool :=
  match w.kind with
  | WeaponKind.machineGun =>
      decide (now - w.lastFireTime ≥ w.fireRate) && decide (w.currentAmmo > 0)
  | WeaponKind.pistol =>
      decide (now - w.lastFireTime ≥ w.fireRate) &&
        (decide (w.ammo = -1) || decide (w.currentAmmo > 0))

/-- `createProjectile(fromX, fromY, targetX, targetY)`: both the Pistol and
the MachineGun build a speed-600, radius-3, damage-1 player-owned
projectile toward the target, and return null when the target coincides
with the origin. -/
def Weapon.createProjectile (w : Weapon) (fromX fromY targetX targetY : ℚ) :
    Option Projectile :=
  let dx := targetX - fromX
  let dy := targetY - fromY
  let distance := ratSqrt (dx * dx + dy * dy)
  match w.kind with
  | WeaponKind.pistol =>
      if distance = 0 then none
      else
        let n := Utils.normalize dx dy
        some { x := fromX, y := fromY, radius := BULLET_RADIUS,
               vx := n.x * BULLET_SPEED, vy := n.y * BULLET_SPEED,
               hp := 1, maxHp := 1, alive := true, damage := 1,
               owner := some OwnerKind.player, lifetime := 3, age := 0 }
  | WeaponKind.machineGun =>
      if distance = 0 then none
      else
        some { x := fromX, y := fromY, radius := BULLET_RADIUS,
               vx := dx / distance * BULLET_SPEED,
               vy := dy / distance * BULLET_SPEED,
               hp := 1, maxHp := 1, alive := true, damage := 1,
               owner := some OwnerKind.player, lifetime := 3, age := 0 }

/-- `Weapon.fire(fromX, fromY, targetX, targetY, projectiles)` at
wall-clock second `now`: nothing is mutated unless the `canFire` gate
passes and a projectile is actually produced, in which case the projectile
is pushed, the last-fire timestamp is reset and a round is consumed when
the capacity is finite and positive. -/
def Weapon.fire (w : Weapon) (now fromX fromY targetX targetY : ℚ)
    (projectiles : List Projectile) : Bool × Weapon × List Projectile :=
  if ¬ w.canFire now then (false, w, projectiles)
  else
    match w.createProjectile fromX fromY targetX targetY with
    | none => (false, w, projectiles)
    | some projectile =>
        (true,
         { w with lastFireTime := now,
                  currentAmmo := if w.ammo > 0 then w.currentAmmo - 1
                                 else w.currentAmmo },
         projectiles ++ [projectile])

/-- Runs `Weapon.fire` once per listed wall-clock time, always from the
origin toward the fixed target, collecting the Boolean result of each
attempt alongside the final weapon and projectile list. -/
def fireSeq : Weapon → List ℚ → ℚ × ℚ → List Projectile →
    Weapon × List Projectile × List Bool
  | w, [], _, projectiles => (w, projectiles, [])
  | w, now :: rest, target, projectiles =>
    let r := Weapon.fire w now 0 0 target.1 target.2 projectiles
    let s := fireSeq r.2.1 rest target r.2.2
    (s.1, s.2.1, r.1 :: s.2.2)

namespace Entities

/-- Weapon record from the entities.js variant (config entry plus
`lastFireTime`): fire rate in milliseconds, bullet speed, and ammo with
`none` embedding the `Infinity` sentinel of the config. -/
structure Weapon where
  fireRate : ℚ
  bulletSpeed : ℚ
  ammo : Option ℚ
  lastFireTime : ℚ
deriving DecidableEq, Repr

/-- Bullet from entities.js as built by `tryFire`: spawn position offset by
the player radius along the aim direction, unit direction and speed. -/
structure Bullet where
  x : ℚ
  y : ℚ
  dirX : ℚ
  dirY : ℚ
  speed : ℚ
deriving DecidableEq, Repr

/-- Player from entities.js, restricted to the state `tryFire` reads and
writes: position, radius and the single weapon of the weapons table (the
config's machine gun). -/
structure Player where
  x : ℚ
  y : ℚ
  radius : ℚ
  weapon : Weapon
deriving DecidableEq, Repr

/-- `normalizeVector(x, y)` from utils.js: the zero vector when the length
is zero. -/
def normalizeVector (x y : ℚ) : Vec2 :=
  let length := ratSqrt (x * x + y * y)
  if length = 0 then ⟨0, 0⟩ else ⟨x / length, y / length⟩

/-- `Player.tryFire(mouseX, mouseY)` from entities.js at wall-clock
millisecond `now` (`Date.now()`): null without any mutation when the
fire-rate gate or the finite-ammo gate fails; otherwise builds the bullet
toward the mouse, resets the last-fire timestamp and decrements finite
ammo. -/
def Player.tryFire (p : Player) (mouseX mouseY now : ℚ) :
    Option Bullet × Player :=
  let weapon := p.weapon
  if now - weapon.lastFireTime < weapon.fireRate then (none, p)
  else if (weapon.ammo.map fun a => decide (a ≤ 0)).getD false then (none, p)
  else
    let direction := normalizeVector (mouseX - p.x) (mouseY - p.y)
    let bullet : Bullet :=
      { x := p.x + direction.x * p.radius, y := p.y + direction.y * p.radius,
        dirX := direction.x, dirY := direction.y, speed := weapon.bulletSpeed }
    (some bullet,
     { p with weapon := { weapon with lastFireTime := now,
                                      ammo := weapon.ammo.map (· - 1) } })

/-- Replays a list of `tryFire` calls `(mouseX, mouseY, now)` against the
player, returning the wall-clock times of the successful fires in order. -/
def fireTimes : Player → List (ℚ × ℚ × ℚ) → List ℚ
  | _, [] => []
  | p, (mx, my, now) :: rest =>
    let r := p.tryFire mx my now
    match r.1 with
    | some _ => now :: fireTimes r.2 rest
    | none => fireTimes r.2 rest

end Entities

/-- The GAME_STATES constants of main.js. -/
inductive GState where
  | boot : GState
  | menu : GState
  | playing : GState
  | paused : GState
  | upgradePick : GState
  | gameOver : GState
deriving DecidableEq, Repr

/-- GameStateMachine from main.js: current and previous state plus the log
of `stateChanged` events emitted on its event bus (each recorded as the
`{ from, to }` pair). -/
structure GameStateMachine where
  currentState : GState
  previousState : Option GState
  events : List (GState × GState)
deriving DecidableEq, Repr

/-- GameStateMachine constructor: starts in BOOT with no previous state. -/
def mkGameStateMachine : GameStateMachine :=
  { currentState := GState.boot, previousState := none, events := [] }

/-- `GameStateMachine.setState(newState)` from main.js: an early-returned
no-op when the requested state is already active; otherwise records the
previous state, switches, and emits one `stateChanged` event. -/
def GameStateMachine.setState (m : GameStateMachine) (newState : GState) :
    GameStateMachine :=
  if m.currentState = newState then m
  else
    { currentState := newState, previousState := some m.currentState,
      events := m.events ++ [(m.currentState, newState)] }

/-- Game from main.js, restricted to the simulation state the update and
collision code reads and writes: the state machine, the player, the enemy
and projectile collections, the kill counter and the spawn timer. -/
structure Game where
  stateMachine : GameStateMachine
  player : Player
  enemies : List Enemy
  projectiles : List Projectile
  killCount : ℕ
  enemySpawnTimer : ℚ
deriving DecidableEq, Repr

/-- First loop of `Game.handleCollisions` (player vs enemies): for each
enemy colliding with the player, the player takes that enemy's contact
damage when damage-eligible; the enemies themselves are not mutated. -/
def playerEnemyPass : Player → List Enemy → Player
  | p, [] => p
  | p, e :: rest =>
    if CollisionSystem.checkCircleCollision p.x p.y p.radius e.x e.y e.radius then
      if p.canTakeDamage then playerEnemyPass (p.takeDamage e.damage).2 rest
      else playerEnemyPass p rest
    else playerEnemyPass p rest

/-- Inner loop of the second pass of `Game.handleCollisions`, run for one
player-owned projectile over the enemy array: every enemy the projectile
overlaps takes its damage, the projectile's alive flag is cleared on a hit,
and the kill counter is incremented whenever the struck enemy is not alive
after the hit.  The loop has no break and never re-checks the projectile's
alive flag, so it continues through the rest of the array even after the
first hit. -/
def projVsEnemies : Projectile → List Enemy → ℕ → Projectile × List Enemy × ℕ
  | pr, [], kills => (pr, [], kills)
  | pr, e :: rest, kills =>
    if CollisionSystem.checkCircleCollision pr.x pr.y pr.radius e.x e.y e.radius then
      let e := e.takeDamage pr.damage
      let kills := if ¬ e.isAlive then kills + 1 else kills
      let r := projVsEnemies { pr with alive := false } rest kills
      (r.1, e :: r.2.1, r.2.2)
    else
      let r := projVsEnemies pr rest kills
      (r.1, e :: r.2.1, r.2.2)

/-- Second loop of `Game.handleCollisions` (player projectiles vs
enemies): each player-owned projectile runs `projVsEnemies` over the enemy
array as mutated by the earlier projectiles. -/
def playerProjPass : List Projectile → List Enemy → ℕ →
    List Projectile × List Enemy × ℕ
  | [], es, kills => ([], es, kills)
  | pr :: prs, es, kills =>
    if pr.owner = some OwnerKind.player then
      let r := projVsEnemies pr es kills
      let s := playerProjPass prs r.2.1 r.2.2
      (r.1 :: s.1, s.2.1, s.2.2)
    else
      let s := playerProjPass prs es kills
      (pr :: s.1, s.2.1, s.2.2)

/-- Third loop of `Game.handleCollisions` (enemy projectiles vs player):
each projectile neither player-owned nor ownerless that overlaps the
player, while the player is damage-eligible, damages the player and is
deactivated. -/
def enemyProjPass : Player → List Projectile → Player × List Projectile
  | p, [] => (p, [])
  | p, pr :: rest =>
    if pr.owner ≠ some OwnerKind.player ∧ pr.owner ≠ none then
      if CollisionSystem.checkCircleCollision pr.x pr.y pr.radius p.x p.y p.radius then
        if p.canTakeDamage then
          let r := enemyProjPass (p.takeDamage pr.damage).2 rest
          (r.1, { pr with alive := false } :: r.2)
        else
          let r := enemyProjPass p rest
          (r.1, pr :: r.2)
      else
        let r := enemyProjPass p rest
        (r.1, pr :: r.2)
    else
      let r := enemyProjPass p rest
      (r.1, pr :: r.2)

/-- `Game.handleCollisions()` from main.js: the three passes in order; the
player mutated by the first pass is the player the third pass reads, and
the projectile list mutated by the second pass is the list the third pass
reads. -/
def Game.handleCollisions (g : Game) : Game :=
  let p := playerEnemyPass g.player g.enemies
  let r := playerProjPass g.projectiles g.enemies g.killCount
  let s := enemyProjPass p r.1
  { g with player := s.1, enemies := r.2.1, projectiles := s.2,
           killCount := r.2.2 }

/-- Game-over condition check at the end of `Game.update`: when the player
is not alive and the machine is still in PLAYING, transition to
GAME_OVER. -/
def Game.checkGameOver (g : Game) : Game :=
  if ¬ g.player.isAlive ∧ g.stateMachine.currentState = GState.playing then
    { g with stateMachine := g.stateMachine.setState GState.gameOver }
  else g

/-- One `Game.update` tick of main.js taken with the machine in GAME_OVER:
the state switch dispatches to `updateGameOver` (an empty method), after
which the tick still runs `handleCollisions` unconditionally and then the
game-over condition check.  Input polling and HUD writes touch no
simulation state and are external collaborators. -/
def Game.updateGameOverTick (g : Game) : Game :=
  Game.checkGameOver (Game.handleCollisions g)

/-- Position-and-velocity footprint of a player, used to state that the
collision pass moves nothing. -/
def Player.posv (p : Player) : ℚ × ℚ × ℚ × ℚ := (p.x, p.y, p.vx, p.vy)

/-- Position-and-velocity footprint of an enemy. -/
def Enemy.posv (e : Enemy) : ℚ × ℚ × ℚ × ℚ := (e.x, e.y, e.vx, e.vy)

/-- Position-and-velocity footprint of a projectile. -/
def Projectile.posv (pr : Projectile) : ℚ × ℚ × ℚ × ℚ := (pr.x, pr.y, pr.vx, pr.vy)

theorem player_takeDamage_posv (p : Player) (d : ℚ) :
    ((p.takeDamage d).2).posv = p.posv := by
  unfold Player.takeDamage Player.posv
  by_cases h1 : p.iframeTimer > 0
  · simp [h1]
  · by_cases h2 : p.creatorMode <;> simp [h1, h2]

theorem enemy_takeDamage_posv (e : Enemy) (d : ℚ) :
    (e.takeDamage d).posv = e.posv := by
  unfold Enemy.takeDamage Enemy.posv
  by_cases h : e.kind = EnemyKind.tank <;> simp [h]

theorem projVsEnemies_fst (es : List Enemy) : ∀ (pr : Projectile) (k : ℕ),
    (projVsEnemies pr es k).1 =
      if es.any (fun e =>
          CollisionSystem.checkCircleCollision pr.x pr.y pr.radius e.x e.y e.radius)
      then { pr with alive := false } else pr := by
  induction es with
  | nil => intro pr k; simp [projVsEnemies]
  | cons e rest ih =>
    intro pr k
    by_cases h : CollisionSystem.checkCircleCollision pr.x pr.y pr.radius e.x e.y e.radius
    · simp [projVsEnemies, h, ih]
    · simp [projVsEnemies, h, ih]

theorem projVsEnemies_enemies (es : List Enemy) : ∀ (pr : Projectile) (k : ℕ),
    (projVsEnemies pr es k).2.1 =
      es.map fun e =>
        if CollisionSystem.checkCircleCollision pr.x pr.y pr.radius e.x e.y e.radius
        then e.takeDamage pr.damage else e := by
  induction es with
  | nil => intro pr k; simp [projVsEnemies]
  | cons e rest ih =>
    intro pr k
    by_cases h : CollisionSystem.checkCircleCollision pr.x pr.y pr.radius e.x e.y e.radius
    · simp [projVsEnemies, h, ih]
    · simp [projVsEnemies, h, ih]

theorem projVsEnemies_kills (es : List Enemy) : ∀ (pr : Projectile) (k : ℕ),
    (projVsEnemies pr es k).2.2 =
      k + es.countP (fun e =>
        CollisionSystem.checkCircleCollision pr.x pr.y pr.radius e.x e.y e.radius &&
          !(e.takeDamage pr.damage).isAlive) := by
  induction es with
  | nil => intro pr k; simp [projVsEnemies]
  | cons e rest ih =>
    intro pr k
    by_cases h : CollisionSystem.checkCircleCollision pr.x pr.y pr.radius e.x e.y e.radius
    · by_cases hd : (e.takeDamage pr.damage).isAlive
      · simp [projVsEnemies, h, hd, ih, List.countP_cons]
      · simp [projVsEnemies, h, hd, ih, List.countP_cons]
        omega
    · simp [projVsEnemies, h, ih, List.countP_cons]

theorem playerEnemyPass_posv (es : List Enemy) : ∀ (p : Player),
    (playerEnemyPass p es).posv = p.posv := by
  induction es with
  | nil => intro p; rfl
  | cons e rest ih =>
    intro p
    unfold playerEnemyPass
    split
    · split
      · rw [ih, player_takeDamage_posv]
      · exact ih p
    · exact ih p

theorem projVsEnemies_enemies_posv (es : List Enemy) (pr : Projectile) (k : ℕ) :
    ((projVsEnemies pr es k).2.1).map Enemy.posv = es.map Enemy.posv := by
  rw [projVsEnemies_enemies]
  induction es with
  | nil => rfl
  | cons e rest ih =>
    simp only [List.map_cons, List.map, ih]
    split
    · rw [enemy_takeDamage_posv]
    · rfl

theorem projVsEnemies_fst_posv (es : List Enemy) (pr : Projectile) (k : ℕ) :
    ((projVsEnemies pr es k).1).posv = pr.posv := by
  rw [projVsEnemies_fst]
  split <;> rfl

theorem playerProjPass_enemies_posv (prs : List Projectile) :
    ∀ (es : List Enemy) (k : ℕ),
    ((playerProjPass prs es k).2.1).map Enemy.posv = es.map Enemy.posv := by
  induction prs with
  | nil => intro es k; rfl
  | cons pr rest ih =>
    intro es k
    unfold playerProjPass
    split
    · rw [ih, projVsEnemies_enemies_posv]
    · exact ih es k

theorem playerProjPass_projs_posv (prs : List Projectile) :
    ∀ (es : List Enemy) (k : ℕ),
    ((playerProjPass prs es k).1).map Projectile.posv = prs.map Projectile.posv := by
  induction prs with
  | nil => intro es k; rfl
  | cons pr rest ih =>
    intro es k
    unfold playerProjPass
    split
    · simp only [List.map_cons, List.map, ih, projVsEnemies_fst_posv]
    · simp only [List.map_cons, List.map, ih]

theorem enemyProjPass_player_posv (prs : List Projectile) : ∀ (p : Player),
    ((enemyProjPass p prs).1).posv = p.posv := by
  induction prs with
  | nil => intro p; rfl
  | cons pr rest ih =>
    intro p
    unfold enemyProjPass
    split
    · split
      · split
        · rw [ih, player_takeDamage_posv]
        · exact ih p
      · exact ih p
    · exact ih p

theorem enemyProjPass_projs_posv (prs : List Projectile) : ∀ (p : Player),
    ((enemyProjPass p prs).2).map Projectile.posv = prs.map Projectile.posv := by
  induction prs with
  | nil => intro p; rfl
  | cons pr rest ih =>
    intro p
    unfold enemyProjPass
    split
    · split
      · split <;> simp [Projectile.posv, ih]
      · simp only [List.map_cons, List.map, ih]
    · simp only [List.map_cons, List.map, ih]

namespace Entities

theorem Player.tryFire_none (p : Player) (mx my now : ℚ)
    (h : (p.tryFire mx my now).1 = none) : (p.tryFire mx my now).2 = p := by
  unfold Player.tryFire at *
  by_cases h1 : now - p.weapon.lastFireTime < p.weapon.fireRate
  · simp [h1]
  · by_cases h2 : ((p.weapon.ammo.map fun a => decide (a ≤ 0)).getD false) = true
    · simp [h1, h2]
    · simp [h1, h2] at h

theorem Player.tryFire_some (p : Player) (mx my now : ℚ) (b : Bullet)
    (h : (p.tryFire mx my now).1 = some b) :
    p.weapon.fireRate ≤ now - p.weapon.lastFireTime ∧
    (p.tryFire mx my now).2 =
      { p with weapon := { p.weapon with
                            lastFireTime := now,
                            ammo := p.weapon.ammo.map (· - 1) } } := by
  unfold Player.tryFire at *
  by_cases h1 : now - p.weapon.lastFireTime < p.weapon.fireRate
  · simp [h1] at h
  · by_cases h2 : ((p.weapon.ammo.map fun a => decide (a ≤ 0)).getD false) = true
    · simp [h1, h2] at h
    · exact ⟨le_of_not_lt h1, by simp [h1, h2]⟩

theorem fireTimes_chain (calls : List (ℚ × ℚ × ℚ)) : ∀ (p : Player),
    List.Chain (fun a b => p.weapon.fireRate ≤ b - a) p.weapon.lastFireTime
      (fireTimes p calls) := by
  induction calls with
  | nil => intro p; exact List.Chain.nil
  | cons c rest ih =>
    intro p
    obtain ⟨mx, my, now⟩ := c
    unfold fireTimes
    cases hr : (p.tryFire mx my now).1 with
    | none =>
      simp only
      rw [hr]
      simp only
      rw [Player.tryFire_none p mx my now hr]
      exact ih p
    | some b =>
      obtain ⟨hrate, hstate⟩ := Player.tryFire_some p mx my now b hr
      simp only
      rw [hr]
      simp only
      rw [hstate]
      refine List.Chain.cons hrate ?_
      have h3 := ih { p with weapon := { p.weapon with
                                          lastFireTime := now,
                                          ammo := p.weapon.ammo.map (· - 1) } }
      have e1 : ({ p with weapon := { p.weapon with
                                       lastFireTime := now,
                                       ammo := p.weapon.ammo.map (· - 1) } } :
          Player).weapon.fireRate = p.weapon.fireRate := rfl
      have e2 : ({ p with weapon := { p.weapon with
                                       lastFireTime := now,
                                       ammo := p.weapon.ammo.map (· - 1) } } :
          Player).weapon.lastFireTime = now := rfl
      simp only [e1, e2] at h3
      exact h3

end Entities

section KernelEval

attribute [local semireducible] Rat.add Rat.sub Rat.mul Rat.inv

/-- Player-owned projectile for the C1 counterexample, sitting on top of
two assassins at once. -/
def c1Proj : Projectile :=
  { x := 100, y := 100, radius := BULLET_RADIUS, vx := 600, vy := 0,
    hp := 1, maxHp := 1, alive := true, damage := 1,
    owner := some OwnerKind.player, lifetime := 3, age := 0 }

/-- Game state for the C1 counterexample: a single player projectile
overlapping two full-health assassins, the player far away. -/
def c1Game : Game :=
  { stateMachine := { mkGameStateMachine with currentState := GState.playing },
    player := mkPlayer 600 400,
    enemies := [mkAssassin 100 100, mkAssassin 110 100],
    projectiles := [c1Proj],
    killCount := 0, enemySpawnTimer := 0 }

set_option maxRecDepth 8000 in
/-- C1 counterexample: the single projectile of `c1Game` overlaps two
enemies in the same collision pass and both take damage (both 1-hp
assassins die), so more than one target takes damage from one projectile
instance, refuting "at most one target ever takes damage from it"; the
projectile is deactivated all the same. -/
theorem c1_counterexample :
    c1Game.projectiles.length = 1
    ∧ c1Game.enemies.map Enemy.hp = [1, 1]
    ∧ (Game.handleCollisions c1Game).enemies.map Enemy.hp = [0, 0]
    ∧ (Game.handleCollisions c1Game).enemies.map Enemy.alive = [false, false]
    ∧ (Game.handleCollisions c1Game).projectiles.map Projectile.alive = [false] := by
  decide

/-- C1 amended: when the collision pass runs one player projectile over the
enemy array, the projectile comes out inactive precisely when it overlapped
at least one enemy (or was already inactive), and every enemy it overlaps
in that pass — possibly more than one — takes the projectile's damage. -/
theorem c1_amended_single_pass (pr : Projectile) (es : List Enemy) (k : ℕ) :
    (projVsEnemies pr es k).1 =
      (if es.any (fun e =>
          CollisionSystem.checkCircleCollision pr.x pr.y pr.radius e.x e.y e.radius)
       then { pr with alive := false } else pr)
    ∧ (projVsEnemies pr es k).2.1 =
        es.map (fun e =>
          if CollisionSystem.checkCircleCollision pr.x pr.y pr.radius e.x e.y e.radius
          then e.takeDamage pr.damage else e) :=
  ⟨projVsEnemies_fst es pr k, projVsEnemies_enemies es pr k⟩

/-- Enemy for the C4 counterexample: a 1-hp assassin. -/
def c4Enemy : Enemy := mkAssassin 200 200

/-- First projectile of the C4 counterexample, overlapping the enemy. -/
def c4Proj1 : Projectile :=
  { x := 200, y := 200, radius := BULLET_RADIUS, vx := 600, vy := 0,
    hp := 1, maxHp := 1, alive := true, damage := 1,
    owner := some OwnerKind.player, lifetime := 3, age := 0 }

/-- Second projectile of the C4 counterexample, also overlapping the
enemy. -/
def c4Proj2 : Projectile :=
  { x := 205, y := 200, radius := BULLET_RADIUS, vx := 600, vy := 0,
    hp := 1, maxHp := 1, alive := true, damage := 1,
    owner := some OwnerKind.player, lifetime := 3, age := 0 }

set_option maxRecDepth 8000 in
/-- C4 counterexample: two player projectiles overlap the same 1-hp enemy
in one collision pass; its health crosses to ≤ 0 exactly once, yet the kill
counter is incremented twice — the second hit strikes the already-dead,
not-yet-culled enemy and counts it again. -/
theorem c4_counterexample :
    [c4Enemy].length = 1
    ∧ c4Enemy.hp = 1
    ∧ (playerProjPass [c4Proj1, c4Proj2] [c4Enemy] 0).2.1.map Enemy.alive = [false]
    ∧ (playerProjPass [c4Proj1, c4Proj2] [c4Enemy] 0).2.2 = 2 := by
  decide

/-- C4 amended: the pass increments the kill counter once per damaging hit
that leaves the struck enemy not alive — the code checks post-hit
aliveness, not the health crossing — so an already-dead enemy hit again
before being culled increments the counter a further time. -/
theorem c4_amended_kill_count (pr : Projectile) (es : List Enemy) (k : ℕ) :
    (projVsEnemies pr es k).2.2 =
      k + es.countP (fun e =>
        CollisionSystem.checkCircleCollision pr.x pr.y pr.radius e.x e.y e.radius &&
          !(e.takeDamage pr.damage).isAlive) :=
  projVsEnemies_kills es pr k

/-- Dead player for the C2 counterexample, frozen mid-invulnerability as a
lethal hit leaves them. -/
def c2DeadPlayer : Player :=
  { mkPlayer 600 400 with hp := 0, alive := false,
                          iframeTimer := PLAYER_IFRAME_DURATION }

/-- GAME_OVER state for the C2 counterexample: a surviving player
projectile overlaps a 2-hp assassin. -/
def c2Game : Game :=
  { stateMachine := { currentState := GState.gameOver,
                      previousState := some GState.playing,
                      events := [(GState.playing, GState.gameOver)] },
    player := c2DeadPlayer,
    enemies := [{ mkAssassin 100 100 with hp := 2, maxHp := 2 }],
    projectiles := [{ x := 100, y := 100, radius := BULLET_RADIUS, vx := 600,
                      vy := 0, hp := 1, maxHp := 1, alive := true, damage := 1,
                      owner := some OwnerKind.player, lifetime := 3, age := 0 }],
    killCount := 0, enemySpawnTimer := 0 }

set_option maxRecDepth 8000 in
/-- C2 counterexample: with the machine in GAME_OVER, one driver tick still
runs collision resolution — in `c2Game` the enemy's health drops from 2 to
1 during the GAME_OVER tick, so entity state does not stay unchanged. -/
theorem c2_counterexample :
    c2Game.stateMachine.currentState = GState.gameOver
    ∧ c2Game.enemies.map Enemy.hp = [2]
    ∧ (Game.updateGameOverTick c2Game).enemies.map Enemy.hp = [1]
    ∧ (Game.updateGameOverTick c2Game).stateMachine.currentState =
        GState.gameOver := by
  decide

/-- C2 amended: in GAME_OVER a driver tick performs no entity movement, no
spawning and no machine transition — it is exactly the collision pass, which
preserves every position, velocity, the spawn timer and the state machine,
though it can still mutate health, alive flags and the kill counter. -/
theorem c2_amended_game_over_tick (g : Game)
    (h : g.stateMachine.currentState = GState.gameOver) :
    Game.updateGameOverTick g = Game.handleCollisions g
    ∧ (Game.handleCollisions g).stateMachine = g.stateMachine
    ∧ ((Game.handleCollisions g).player).posv = g.player.posv
    ∧ ((Game.handleCollisions g).enemies).map Enemy.posv =
        g.enemies.map Enemy.posv
    ∧ ((Game.handleCollisions g).projectiles).map Projectile.posv =
        g.projectiles.map Projectile.posv
    ∧ (Game.handleCollisions g).enemySpawnTimer = g.enemySpawnTimer := by
  have hm : (Game.handleCollisions g).stateMachine = g.stateMachine := rfl
  refine ⟨?_, hm, ?_, ?_, ?_, rfl⟩
  · unfold Game.updateGameOverTick Game.checkGameOver
    have hc : (Game.handleCollisions g).stateMachine.currentState =
        GState.gameOver := by rw [hm, h]
    simp [hc]
  · show ((enemyProjPass (playerEnemyPass g.player g.enemies)
        (playerProjPass g.projectiles g.enemies g.killCount).1).1).posv =
      g.player.posv
    rw [enemyProjPass_player_posv, playerEnemyPass_posv]
  · exact playerProjPass_enemies_posv g.projectiles g.enemies g.killCount
  · show ((enemyProjPass (playerEnemyPass g.player g.enemies)
        (playerProjPass g.projectiles g.enemies g.killCount).1).2).map
          Projectile.posv = g.projectiles.map Projectile.posv
    rw [enemyProjPass_projs_posv, playerProjPass_projs_posv]

set_option maxRecDepth 8000 in
/-- Witness for the amended C2 at the concrete GAME_OVER state `c2Game`. -/
theorem c2_amended_witness :
    Game.updateGameOverTick c2Game = Game.handleCollisions c2Game
    ∧ (Game.handleCollisions c2Game).stateMachine = c2Game.stateMachine
    ∧ ((Game.handleCollisions c2Game).player).posv = c2Game.player.posv
    ∧ ((Game.handleCollisions c2Game).enemies).map Enemy.posv =
        c2Game.enemies.map Enemy.posv
    ∧ ((Game.handleCollisions c2Game).projectiles).map Projectile.posv =
        c2Game.projectiles.map Projectile.posv
    ∧ (Game.handleCollisions c2Game).enemySpawnTimer =
        c2Game.enemySpawnTimer :=
  c2_amended_game_over_tick c2Game (by decide)

/-- C3: after a `Player.takeDamage` call succeeds, the invulnerability
window is running on the resulting player, and any `takeDamage` call on a
player whose invulnerability window is still active (positive
invulnerability timer) returns false and leaves the player — health
included — completely unchanged. -/
theorem c3_invulnerability_window (p : Player) (d : ℚ) (q : Player) (d2 : ℚ)
    (hsucc : (p.takeDamage d).1 = true) (hq : 0 < q.iframeTimer) :
    0 < (p.takeDamage d).2.iframeTimer ∧ q.takeDamage d2 = (false, q) := by
  constructor
  · unfold Player.takeDamage at *
    by_cases h1 : p.iframeTimer > 0
    · simp [h1] at hsucc
    · by_cases h2 : p.creatorMode <;> simp [h1, h2, PLAYER_IFRAME_DURATION]
  · unfold Player.takeDamage
    rw [if_pos hq]

/-- Witness for C3 at a concrete player: the first hit succeeds and starts
the window; a second hit inside the window is rejected without change. -/
theorem c3_witness :
    0 < ((mkPlayer 600 400).takeDamage 1).2.iframeTimer
    ∧ ((mkPlayer 600 400).takeDamage 1).2.takeDamage 1 =
        (false, ((mkPlayer 600 400).takeDamage 1).2) :=
  c3_invulnerability_window (mkPlayer 600 400) 1
    ((mkPlayer 600 400).takeDamage 1).2 1 (by decide) (by decide)

/-- C5: over any sequence of `tryFire` calls on the same player and weapon
instance, the wall-clock times of consecutive successful fires are at least
the weapon's configured fire-rate interval apart, and an unsuccessful call
mutates no state: no ammo is consumed and no timestamp is reset. -/
theorem c5_fire_rate_gate (p : Entities.Player) (calls : List (ℚ × ℚ × ℚ))
    (mx my now : ℚ) (hfail : (p.tryFire mx my now).1 = none) :
    List.Chain' (fun a b => p.weapon.fireRate ≤ b - a)
      (Entities.fireTimes p calls)
    ∧ (p.tryFire mx my now).2 = p := by
  refine ⟨?_, Entities.Player.tryFire_none p mx my now hfail⟩
  have h := Entities.fireTimes_chain calls p
  cases hE : Entities.fireTimes p calls with
  | nil => exact trivial
  | cons a l =>
    rw [hE] at h
    exact (List.chain_cons.mp h).2

/-- Concrete machine-gun player used by the C5 witness (the entities.js
config weapon: 500 ms fire rate, unlimited ammo). -/
def c5Player : Entities.Player :=
  { x := 600, y := 400, radius := 20,
    weapon := { fireRate := 500, bulletSpeed := 600, ammo := none,
                lastFireTime := 0 } }

/-- Witness for C5: three concrete calls produce a fire-rate-respecting
trace, and a call inside the fire-rate window leaves the player as it
was. -/
theorem c5_witness :
    List.Chain' (fun a b => c5Player.weapon.fireRate ≤ b - a)
      (Entities.fireTimes c5Player [(700, 400, 600), (700, 400, 900),
                                    (700, 400, 1200)])
    ∧ (c5Player.tryFire 700 400 100).2 = c5Player :=
  c5_fire_rate_gate c5Player
    [(700, 400, 600), (700, 400, 900), (700, 400, 1200)] 700 400 100
    (by decide)

/-- The machine gun of Scenario B, holding 30 rounds (the class constructor
default capacity is 50; the scenario takes a machine gun with 30 ammo). -/
def mg30 : Weapon := { mkMachineGun with ammo := 30, currentAmmo := 30 }

/-- The 31 attempt times of Scenario B, spaced by exactly the machine gun's
half-second fire-rate interval. -/
def mgTimes : List ℚ := (List.range 31).map fun i => 1 + (i : ℚ) / 2

set_option maxRecDepth 8000 in
/-- C6: firing the 30-round machine gun 31 times at fire-rate spacing (all
toward a fixed valid target) succeeds exactly 30 times, the 31st attempt
fails without creating a projectile, and the remaining ammo is exactly
zero. -/
theorem c6_machine_gun_exhaustion :
    (fireSeq mg30 mgTimes (1, 0) []).2.2 = List.replicate 30 true ++ [false]
    ∧ (fireSeq mg30 mgTimes (1, 0) []).1.currentAmmo = 0
    ∧ (fireSeq mg30 mgTimes (1, 0) []).2.1.length = 30 := by
  decide

/-- C7: requesting a transition into the currently active state is a
guarded no-op that leaves the machine unchanged; the game-over condition
check, run on a PLAYING state whose player is dead, transitions to
GAME_OVER emitting exactly one state-change event; and run while already in
GAME_OVER it changes nothing and replays no transition side effect. -/
theorem c7_game_over_transition (m : GameStateMachine) (g1 g2 : Game)
    (h1 : g1.stateMachine.currentState = GState.playing)
    (h2 : g1.player.alive = false)
    (h3 : g2.stateMachine.currentState = GState.gameOver) :
    m.setState m.currentState = m
    ∧ (Game.checkGameOver g1).stateMachine.currentState = GState.gameOver
    ∧ (Game.checkGameOver g1).stateMachine.events =
        g1.stateMachine.events ++ [(GState.playing, GState.gameOver)]
    ∧ Game.checkGameOver g2 = g2 := by
  refine ⟨?_, ?_, ?_, ?_⟩
  · unfold GameStateMachine.setState
    simp
  · unfold Game.checkGameOver GameStateMachine.setState
    simp [h1, h2, Player.isAlive]
  · unfold Game.checkGameOver GameStateMachine.setState
    simp [h1, h2, Player.isAlive]
  · unfold Game.checkGameOver
    simp [h3]

/-- Machine used by the C7 witness, currently PLAYING. -/
def c7Machine : GameStateMachine :=
  { currentState := GState.playing, previousState := some GState.boot,
    events := [(GState.boot, GState.playing)] }

/-- PLAYING game with a dead player, for the C7 witness. -/
def c7PlayingGame : Game :=
  { stateMachine := c7Machine,
    player := { mkPlayer 600 400 with hp := 0, alive := false,
                                      iframeTimer := PLAYER_IFRAME_DURATION },
    enemies := [], projectiles := [], killCount := 3, enemySpawnTimer := 1 }

/-- GAME_OVER game for the C7 witness. -/
def c7OverGame : Game :=
  { c7PlayingGame with
      stateMachine := { currentState := GState.gameOver,
                        previousState := some GState.playing,
                        events := [(GState.playing, GState.gameOver)] } }

/-- Witness for C7 at concrete machine and game states. -/
theorem c7_witness :
    c7Machine.setState c7Machine.currentState = c7Machine
    ∧ (Game.checkGameOver c7PlayingGame).stateMachine.currentState =
        GState.gameOver
    ∧ (Game.checkGameOver c7PlayingGame).stateMachine.events =
        c7PlayingGame.stateMachine.events ++
          [(GState.playing, GState.gameOver)]
    ∧ Game.checkGameOver c7OverGame = c7OverGame :=
  c7_game_over_transition c7Machine c7PlayingGame c7OverGame
    (by decide) (by decide) (by decide)

/-- C8: for every enemy variant, when the player is not alive the update is
a complete no-op: the Assassin, the Shooter and the Tank each return their
state (position, velocity, timers and sub-state) unchanged, the Shooter
pushes no projectile, and the Tank leaves the player untouched. -/
theorem c8_enemy_updates_noop (dt : ℚ) (p : Player) (b : Bounds)
    (eA eS eT : Enemy) (projs : List Projectile) (aim : Vec2)
    (h : p.isAlive = false) :
    Assassin.update eA dt p b = eA
    ∧ Shooter.update eS dt p b projs aim = (eS, projs)
    ∧ Tank.update eT dt p b = (eT, p) := by
  unfold Assassin.update Shooter.update Tank.update
  simp [h]

/-- Dead player used by the C8 witness. -/
def c8DeadPlayer : Player := { mkPlayer 600 400 with hp := 0, alive := false }

/-- Witness for C8 at concrete enemies of all three variants. -/
theorem c8_witness :
    Assassin.update (mkAssassin 100 100) (1/60) c8DeadPlayer ⟨1200, 800⟩ =
      mkAssassin 100 100
    ∧ Shooter.update (mkShooter 200 200) (1/60) c8DeadPlayer ⟨1200, 800⟩ []
        ⟨1, 0⟩ = (mkShooter 200 200, [])
    ∧ Tank.update (mkTank 300 300) (1/60) c8DeadPlayer ⟨1200, 800⟩ =
        (mkTank 300 300, c8DeadPlayer) :=
  c8_enemy_updates_noop (1/60) c8DeadPlayer ⟨1200, 800⟩ (mkAssassin 100 100)
    (mkShooter 200 200) (mkTank 300 300) [] ⟨1, 0⟩ (by decide)

/-- Scenario A player: arena center, 3 health, no invulnerability running,
creator mode off. -/
def scenarioPlayer : Player := mkPlayer 600 400

/-- Scenario A tank, overlapping the player (center distance 20, radii
25 + 16). -/
def scenarioTank : Enemy := mkTank 620 400

/-- Scenario A arena bounds. -/
def scenarioBounds : Bounds := ⟨ARENA_WIDTH, ARENA_HEIGHT⟩

/-- First tank update of Scenario A (one sixtieth of a second). -/
def c9Step1 : Enemy × Player :=
  Tank.update scenarioTank (1/60) scenarioPlayer scenarioBounds

/-- Second tank update of Scenario A, one tick later and well inside the
0.7 s contact cooldown. -/
def c9Step2 : Enemy × Player := Tank.update c9Step1.1 (1/60) c9Step1.2 scenarioBounds

set_option maxRecDepth 8000 in
/-- C9: the tank's first overlap deals exactly 1 damage (3 → 2 hp) and
displaces the player by exactly the knockback amount along the contact
normal, away from the tank (the tank sits to the player's right, the player
is pushed left, the y coordinate is unchanged); the contact cooldown
starts; on the next tick the circles still overlap but the cooldown is
still running and the player takes 0 additional damage. -/
theorem c9_tank_contact_scenario :
    scenarioPlayer.hp = 3
    ∧ c9Step1.2.hp = 2
    ∧ c9Step1.2.x = scenarioPlayer.x - TANK_KNOCKBACK
    ∧ c9Step1.2.y = scenarioPlayer.y
    ∧ c9Step1.1.x > c9Step1.2.x
    ∧ c9Step1.1.contactCooldown = TANK_CONTACT_COOLDOWN
    ∧ Utils.distance c9Step2.1.x c9Step2.1.y c9Step2.2.x c9Step2.2.y <
        c9Step2.1.radius + c9Step2.2.radius
    ∧ c9Step2.1.contactCooldown > 0
    ∧ c9Step2.2.hp = 2
    ∧ c9Step2.2.x = c9Step1.2.x := by
  decide

/-- Player for the C10 counterexample: creator mode set while the
invulnerability window is still running. -/
def c10InvulnPlayer : Player :=
  { mkPlayer 600 400 with creatorMode := true, iframeTimer := 1/2 }

/-- C10 counterexample: with creator mode set but the invulnerability
window active, `takeDamage` returns false and starts nothing, so the
claim's unconditional "returns true and starts the timers" fails. -/
theorem c10_counterexample :
    c10InvulnPlayer.creatorMode = true
    ∧ (c10InvulnPlayer.takeDamage 1).1 = false
    ∧ (c10InvulnPlayer.takeDamage 1).2 = c10InvulnPlayer := by
  decide

/-- C10 amended: when creator mode is set and the invulnerability window is
not active, `takeDamage` reports success and starts the invulnerability and
flash timers while leaving health — and every other field — untouched, for
any damage amount. -/
theorem c10_amended_creator_mode (p : Player) (d : ℚ)
    (hc : p.creatorMode = true) (hi : p.iframeTimer ≤ 0) :
    p.takeDamage d =
      (true, { p with iframeTimer := PLAYER_IFRAME_DURATION,
                      flashTimer := 1/10 })
    ∧ (p.takeDamage d).2.hp = p.hp := by
  have hni : ¬ p.iframeTimer > 0 := not_lt.mpr hi
  have h1 : p.takeDamage d =
      (true, { p with iframeTimer := PLAYER_IFRAME_DURATION,
                      flashTimer := 1/10 }) := by
    unfold Player.takeDamage
    rw [if_neg hni, if_pos hc]
  exact ⟨h1, by rw [h1]⟩

/-- Player for the C10 witness: creator mode set, window inactive. -/
def c10CreatorPlayer : Player := { mkPlayer 600 400 with creatorMode := true }

/-- Witness for the amended C10 at a concrete creator-mode player and a
damage amount of 5: success is reported, timers start, hp stays 3. -/
theorem c10_witness :
    c10CreatorPlayer.takeDamage 5 =
      (true, { c10CreatorPlayer with iframeTimer := PLAYER_IFRAME_DURATION,
                                     flashTimer := 1/10 })
    ∧ (c10CreatorPlayer.takeDamage 5).2.hp = c10CreatorPlayer.hp :=
  c10_amended_creator_mode c10CreatorPlayer 5 rfl (by decide)

end KernelEval
